import Mathlib

/-!
Verification development for the `visually-script` presentation-builder library
(`src/visually-script/visually-script.ts`, `src/visually-script/types.ts`).

The TypeScript classes are shallowly embedded as pure Lean definitions:

* plain JavaScript values become Lean values (`string` as `String`, `number`
  as `ℚ` — JavaScript numbers are IEEE doubles; every concrete value the
  theorems evaluate is a small integer, where the two agree exactly);
* optional / possibly-`undefined` fields become `Option`;
* mutation of `this` becomes explicit state passing;
* `Math.random()` / `Date.now()` inside `generateId` become explicit
  parameters, since those sources are nondeterministic;
* object identity (needed for `addSlide`, which stores the `Slide`'s internal
  object by reference) is modelled with a small heap: a list of slide records
  addressed by index.
-/

/-- ASCII whitespace trimmed by JavaScript `String.prototype.trim` (the full
JavaScript set also has Unicode spaces, which no claim exercises). -/
def isJsWhitespace (c : Char) : Bool :=
  c = ' ' ∨ c = '\t' ∨ c = '\n' ∨ c = '\r' ∨ c = '\x0b' ∨ c = '\x0c'

/-- JavaScript `trim()` over a character list. -/
def jsTrimList (cs : List Char) : List Char :=
  ((cs.dropWhile isJsWhitespace).reverse.dropWhile isJsWhitespace).reverse

/-- JavaScript `s.trim()`. -/
def jsTrim (s : String) : String :=
  String.mk (jsTrimList s.data)

/-- JavaScript `split` on a single separator character, over character lists:
the empty string yields `[""]`, adjacent separators yield empty fields. -/
def splitOnChar (sep : Char) : List Char → List (List Char)
  | [] => [[]]
  | c :: rest =>
    let r := splitOnChar sep rest
    if c = sep then [] :: r
    else
      match r with
      | g :: gs => (c :: g) :: gs
      | [] => [[c]]

/-- JavaScript `s.split(sep)` for a one-character separator. -/
def jsSplit (sep : Char) (s : String) : List String :=
  (splitOnChar sep s.data).map String.mk

/-- Result of the JavaScript `Number(string)` coercion when it is not `NaN`:
either a finite value (kept as an exact rational; IEEE rounding and overflow
to `Infinity` are not modelled — all values the claims evaluate are small
integers) or one of the two infinities. `none` at the use sites means `NaN`. -/
inductive JsNum where
  | finite (q : ℚ)
  | inf
  | negInf
deriving DecidableEq, Repr

/-- JavaScript unary minus on a non-`NaN` number. -/
def JsNum.neg : JsNum → JsNum
  | .finite q => .finite (-q)
  | .inf => .negInf
  | .negInf => .inf

/-- Leading decimal digits of a character list, and the remainder. -/
def takeDigits : List Char → List Char × List Char
  | [] => ([], [])
  | c :: rest =>
    if c.isDigit then
      let (d, r) := takeDigits rest
      (c :: d, r)
    else ([], c :: rest)

/-- Value of a list of decimal digit characters. -/
def digitsToNat (ds : List Char) : ℕ :=
  ds.foldl (fun a c => 10 * a + (c.toNat - 48)) 0

/-- Computes `10^e` in `ℚ` for an integer exponent (without typeclass `zpow`). -/
def pow10 (e : ℤ) : ℚ :=
  if 0 ≤ e then ((10 : ℚ) ^ e.toNat) else 1 / ((10 : ℚ) ^ (-e).toNat)

/-- Nonempty all-digit condition used by the exponent part. -/
def allDigits (ds : List Char) : Bool :=
  decide (ds ≠ []) && ds.all Char.isDigit

/-- Exponent part of a JavaScript decimal literal: empty, or `e`/`E`, an
optional sign, and at least one digit. `none` means the tail is malformed. -/
def parseExpPart : List Char → Option ℤ
  | [] => some 0
  | c :: rest =>
    if c = 'e' ∨ c = 'E' then
      match rest with
      | '+' :: ds => if allDigits ds then some (Int.ofNat (digitsToNat ds)) else none
      | '-' :: ds => if allDigits ds then some (-(Int.ofNat (digitsToNat ds))) else none
      | ds => if allDigits ds then some (Int.ofNat (digitsToNat ds)) else none
    else none

/-- Unsigned decimal literal of the `Number()` grammar:
`digits [. digits] [exp]` or `. digits [exp]`. -/
def parseDecimal (cs : List Char) : Option ℚ :=
  let (ip, r1) := takeDigits cs
  match r1 with
  | '.' :: r2 =>
    let (fp, r3) := takeDigits r2
    if ip = [] ∧ fp = [] then none
    else
      (parseExpPart r3).map fun e =>
        ((digitsToNat ip : ℚ) + (digitsToNat fp : ℚ) / ((10 : ℚ) ^ fp.length)) * pow10 e
  | _ =>
    if ip = [] then none
    else (parseExpPart r1).map fun e => (digitsToNat ip : ℚ) * pow10 e

/-- Unsigned part after an optional sign: `Infinity` or a decimal literal. -/
def parseUnsignedNum (cs : List Char) : Option JsNum :=
  if cs = "Infinity".data then some .inf
  else (parseDecimal cs).map .finite

/-- Value of one digit in a non-decimal radix, `none` if out of range. -/
def radixDigitVal (radix : ℕ) (c : Char) : Option ℕ :=
  let v :=
    if c.isDigit then some (c.toNat - 48)
    else if 'a' ≤ c ∧ c ≤ 'f' then some (c.toNat - 87)
    else if 'A' ≤ c ∧ c ≤ 'F' then some (c.toNat - 55)
    else none
  match v with
  | some d => if d < radix then some d else none
  | none => none

/-- Fold a digit list in the given radix, `none` on any bad digit. -/
def radixFold (radix : ℕ) : List Char → Option ℕ
  | [] => some 0
  | c :: rest =>
    match radixDigitVal radix c, radixFold radix rest with
    | some d, some acc => some (d * radix ^ rest.length + acc)
    | _, _ => none

/-- Parses the `0x` / `0o` / `0b` integer literals of the `Number()` grammar
(no sign allowed before them, at least one digit). -/
def parseNonDecimal : List Char → Option JsNum
  | '0' :: m :: ds =>
    let radix :=
      if m = 'x' ∨ m = 'X' then some 16
      else if m = 'o' ∨ m = 'O' then some 8
      else if m = 'b' ∨ m = 'B' then some 2
      else none
    match radix with
    | some r => if ds = [] then none else (radixFold r ds).map fun n => .finite (n : ℚ)
    | none => none
  | _ => none

/-- The JavaScript `Number(string)` coercion: trim, empty means `+0`, an
optional sign followed by `Infinity` or a decimal literal, or an unsigned
non-decimal integer literal. `none` means `NaN`.
JavaScript trims the full Unicode whitespace set; `String.trim` here covers
the ASCII whitespace the claims exercise. -/
def jsStringToNumber (s : String) : Option JsNum :=
  match (jsTrim s).data with
  | [] => some (.finite 0)
  | '+' :: rest => parseUnsignedNum rest
  | '-' :: rest => (parseUnsignedNum rest).map JsNum.neg
  | cs =>
    match parseUnsignedNum cs with
    | some n => some n
    | none => parseNonDecimal cs

/-- One CSV cell after coercion: a trimmed string or a number, mirroring the
TypeScript type `(string | number)`. -/
inductive CsvCell where
  | str (s : String)
  | num (n : JsNum)
deriving DecidableEq, Repr

/-- Per-cell coercion in `addCsv`:
`const trimmed = cell.trim(); return isNaN(Number(trimmed)) ? trimmed : Number(trimmed);`. -/
def coerceCell (cell : String) : CsvCell :=
  let trimmed := jsTrim cell
  match jsStringToNumber trimmed with
  | some n => .num n
  | none => .str trimmed

/-- Models `content.split('\n').filter(line => line.trim() !== '')` from `addCsv`. -/
def csvLines (content : String) : List String :=
  (jsSplit '\n' content).filter fun line => jsTrim line ≠ ""

/-- Models `lines[0]?.split(',').map(h => h.trim()) || []` from `addCsv`. -/
def csvHeadersOf (content : String) : List String :=
  match csvLines content with
  | [] => []
  | l :: _ => (jsSplit ',' l).map jsTrim

/-- Models `lines.slice(1).map(line => line.split(',').map(cell => ...))` from `addCsv`. -/
def csvRowsOf (content : String) : List (List CsvCell) :=
  (csvLines content).tail.map fun line => (jsSplit ',' line).map coerceCell

/-- String form of a cell when `addCsv` reconstitutes `content` from rows.
JavaScript prints a double via shortest round-trip decimal; this is modelled
exactly for integers, the only case any claim evaluates. -/
def cellToString : CsvCell → String
  | .str s => s
  | .num (.finite q) => if q.den = 1 then toString q.num else toString q
  | .num .inf => "Infinity"
  | .num .negInf => "-Infinity"

/-- Models `[headers.join(','), ...rows.map(row => row.join(','))].join('\n')` from `addCsv`. -/
def csvContentOf (headers : List String) (rows : List (List CsvCell)) : String :=
  String.intercalate "\n"
    (String.intercalate "," headers :: rows.map fun row => String.intercalate "," (row.map cellToString))

/-- The `MediaItem.transition` enumeration from `types.ts`:
`'fade' | 'slide' | 'zoom' | 'none'`. -/
inductive Transition where
  | fade
  | slide
  | zoom
  | none
deriving DecidableEq, Repr

/-- `GamificationAction` from `types.ts`. The `type` union
(`'text' | 'move' | 'wait'`) is kept as a plain string, as at runtime. -/
structure GamificationAction where
  id : String
  type : String
  text : Option String := Option.none
  targetX : Option ℚ := Option.none
  targetY : Option ℚ := Option.none
  duration : Option ℚ := Option.none
deriving DecidableEq, Repr

/-- `QuizAnswerOption` from `types.ts`. The declared type requires `id`, but
callers reach `addQuiz` at runtime with options lacking it (the README example
does), so the field is modelled as optional to observe what the code stores. -/
structure QuizAnswerOption where
  id : Option String
  text : String
  isCorrect : Bool
deriving DecidableEq, Repr

/-- `QuizQuestion` from `types.ts`: a tagged union of multiple-choice and
open-text questions, with the same runtime-optional `id` as the options. -/
inductive QuizQuestion where
  | multipleChoice (id : Option String) (questionText : String) (timer : ℚ)
      (options : List QuizAnswerOption)
  | openText (id : Option String) (questionText : String) (timer : ℚ)
deriving DecidableEq, Repr

/-- `Quiz` from `types.ts`. -/
structure Quiz where
  id : String
  title : String
  questions : List QuizQuestion
deriving DecidableEq, Repr

/-- `Omit<Quiz, 'id'>`: the argument of `Presentation.addQuiz`. -/
structure QuizData where
  title : String
  questions : List QuizQuestion
deriving DecidableEq, Repr

/-- `TextSlideElement` from `types.ts` (sans the `type` discriminant, which
becomes the `SlideElement` constructor). String enumerations are kept as
strings; fields without a builder default stay optional. -/
structure TextElement where
  id : String
  content : String
  x : ℚ
  y : ℚ
  width : ℚ
  height : ℚ
  fontSize : ℚ
  color : String
  fontFamily : String
  fontWeight : Option String := Option.none
  fontStyle : Option String := Option.none
  textAlign : Option String := Option.none
  animation : String
deriving DecidableEq, Repr

/-- `ImageSlideElement` from `types.ts`. -/
structure ImageElement where
  id : String
  src : String
  x : ℚ
  y : ℚ
  width : ℚ
  height : ℚ
  alt : Option String := Option.none
deriving DecidableEq, Repr

/-- `MathSlideElement` from `types.ts`. -/
structure MathElement where
  id : String
  content : String
  x : ℚ
  y : ℚ
  width : ℚ
  height : ℚ
  fontSize : ℚ
  color : String
deriving DecidableEq, Repr

/-- `ShapeSlideElement` from `types.ts`. -/
structure ShapeElement where
  id : String
  shape : String
  x : ℚ
  y : ℚ
  width : ℚ
  height : ℚ
  strokeColor : String
  strokeWidth : ℚ
  fillColor : String
deriving DecidableEq, Repr

/-- `StickerSlideElement` from `types.ts`. -/
structure StickerElement where
  id : String
  content : String
  x : ℚ
  y : ℚ
  width : ℚ
  height : ℚ
  fontSize : ℚ
  rotation : ℚ
deriving DecidableEq, Repr

/-- `GamificationElement` from `types.ts`. -/
structure GamificationElement where
  id : String
  character : String
  x : ℚ
  y : ℚ
  width : ℚ
  height : ℚ
  actions : List GamificationAction
deriving DecidableEq, Repr

/-- `SlideElement` from `types.ts`: the tagged union, with the constructor
playing the role of the `type` discriminant string. -/
inductive SlideElement where
  | text (e : TextElement)
  | image (e : ImageElement)
  | math (e : MathElement)
  | shape (e : ShapeElement)
  | sticker (e : StickerElement)
  | gamification (e : GamificationElement)
deriving DecidableEq, Repr

/-- `PresentationSlide` from `types.ts`. The constructor always sets
`backgroundColor` and `borderStyle`, so those are non-optional here; the
border style union is kept as a plain string. -/
structure PresentationSlide where
  id : String
  title : String
  elements : List SlideElement
  backgroundColor : String
  backgroundImageUrl : Option String := Option.none
  borderStyle : String
  borderColor : Option String := Option.none
  borderWidth : Option ℚ := Option.none
deriving DecidableEq, Repr

/-- Caller input of `Slide.addText`: `Partial<Omit<TextSlideElement, 'id' | 'type'>>`.
The `id` and `type` fields are present here only to express that even a raw
JavaScript object carrying them cannot override the builder (the spread
`{ ...defaults, ...props, id: generateId(), type: 'text' }` puts the builder
values last); the builder never reads them. -/
structure TextProps where
  content : Option String := Option.none
  x : Option ℚ := Option.none
  y : Option ℚ := Option.none
  width : Option ℚ := Option.none
  height : Option ℚ := Option.none
  fontSize : Option ℚ := Option.none
  color : Option String := Option.none
  fontFamily : Option String := Option.none
  fontWeight : Option String := Option.none
  fontStyle : Option String := Option.none
  textAlign : Option String := Option.none
  animation : Option String := Option.none
  id : Option String := Option.none
  type : Option String := Option.none
deriving DecidableEq, Repr

/-- Caller input of `Slide.addImage`. -/
structure ImageProps where
  src : Option String := Option.none
  x : Option ℚ := Option.none
  y : Option ℚ := Option.none
  width : Option ℚ := Option.none
  height : Option ℚ := Option.none
  alt : Option String := Option.none
  id : Option String := Option.none
  type : Option String := Option.none
deriving DecidableEq, Repr

/-- Caller input of `Slide.addMath`. -/
structure MathProps where
  content : Option String := Option.none
  x : Option ℚ := Option.none
  y : Option ℚ := Option.none
  width : Option ℚ := Option.none
  height : Option ℚ := Option.none
  fontSize : Option ℚ := Option.none
  color : Option String := Option.none
  id : Option String := Option.none
  type : Option String := Option.none
deriving DecidableEq, Repr

/-- Caller input of `Slide.addShape`. -/
structure ShapeProps where
  shape : Option String := Option.none
  x : Option ℚ := Option.none
  y : Option ℚ := Option.none
  width : Option ℚ := Option.none
  height : Option ℚ := Option.none
  strokeColor : Option String := Option.none
  strokeWidth : Option ℚ := Option.none
  fillColor : Option String := Option.none
  id : Option String := Option.none
  type : Option String := Option.none
deriving DecidableEq, Repr

/-- Caller input of `Slide.addSticker`:
`{ content: string, x: number, y: number, size?: number, rotation?: number }`.
Destructuring ignores any other field, so stray `id` / `type` entries are
modelled the same way as for the merge-based builders. -/
structure StickerProps where
  content : String
  x : ℚ
  y : ℚ
  size : Option ℚ := Option.none
  rotation : Option ℚ := Option.none
  id : Option String := Option.none
  type : Option String := Option.none
deriving DecidableEq, Repr

/-- Caller input of `Slide.addCharacter`. -/
structure CharacterProps where
  character : Option String := Option.none
  x : Option ℚ := Option.none
  y : Option ℚ := Option.none
  width : Option ℚ := Option.none
  height : Option ℚ := Option.none
  actions : Option (List GamificationAction) := Option.none
  id : Option String := Option.none
  type : Option String := Option.none
deriving DecidableEq, Repr

/-- Caller input of `Slide.setBorder`:
`{ style: PresentationSlide['borderStyle'], color?: string, width?: number }`. -/
structure BorderProps where
  style : String
  color : Option String := Option.none
  width : Option ℚ := Option.none
deriving DecidableEq, Repr

/-- JavaScript truthiness of a possibly-absent string (`undefined` and `""`
are falsy). -/
def jsTruthyStr : Option String → Bool
  | Option.none => false
  | some s => s ≠ ""

/-- JavaScript truthiness of a possibly-absent number (`undefined` and `0`
are falsy; `NaN`, also falsy, has no `ℚ` representative). -/
def jsTruthyNum : Option ℚ → Bool
  | Option.none => false
  | some q => q ≠ 0

namespace Slide

/-- The `Slide` constructor: `new Slide(title, backgroundColor = '#FFFFFF')`.
The fresh identifier produced by `generateId()` is passed in explicitly. -/
def make (title : String) (backgroundColor : String) (newId : String) : PresentationSlide :=
  { id := newId
    title := title
    backgroundColor := backgroundColor
    elements := []
    borderStyle := "none" }

/-- `Slide.addElement`: `this.slide.elements.push(element)`. -/
def addElement (s : PresentationSlide) (element : SlideElement) : PresentationSlide :=
  { s with elements := s.elements ++ [element] }

/-- The element built by `Slide.addText`: defaults, overridden field-by-field
by the caller's fields, with `id` and `type` assigned by the builder. -/
def mkTextElement (props : TextProps) (newId : String) : TextElement :=
  { id := newId
    content := props.content.getD "New Text"
    x := props.x.getD 10
    y := props.y.getD 10
    width := props.width.getD 300
    height := props.height.getD 50
    fontSize := props.fontSize.getD 24
    color := props.color.getD "#000000"
    fontFamily := props.fontFamily.getD "Alegreya"
    fontWeight := props.fontWeight
    fontStyle := props.fontStyle
    textAlign := props.textAlign
    animation := props.animation.getD "none" }

/-- `Slide.addText`. -/
def addText (s : PresentationSlide) (props : TextProps) (newId : String) : PresentationSlide :=
  addElement s (.text (mkTextElement props newId))

/-- The element built by `Slide.addImage`. -/
def mkImageElement (props : ImageProps) (newId : String) : ImageElement :=
  { id := newId
    src := props.src.getD "https://placehold.co/300x200.png"
    x := props.x.getD 10
    y := props.y.getD 10
    width := props.width.getD 300
    height := props.height.getD 200
    alt := props.alt }

/-- `Slide.addImage`. -/
def addImage (s : PresentationSlide) (props : ImageProps) (newId : String) : PresentationSlide :=
  addElement s (.image (mkImageElement props newId))

/-- The element built by `Slide.addMath`. -/
def mkMathElement (props : MathProps) (newId : String) : MathElement :=
  { id := newId
    content := props.content.getD "E = mc^2"
    x := props.x.getD 10
    y := props.y.getD 10
    width := props.width.getD 200
    height := props.height.getD 60
    fontSize := props.fontSize.getD 24
    color := props.color.getD "#000000" }

/-- `Slide.addMath`. -/
def addMath (s : PresentationSlide) (props : MathProps) (newId : String) : PresentationSlide :=
  addElement s (.math (mkMathElement props newId))

/-- The element built by `Slide.addShape`. -/
def mkShapeElement (props : ShapeProps) (newId : String) : ShapeElement :=
  { id := newId
    shape := props.shape.getD "rectangle"
    x := props.x.getD 10
    y := props.y.getD 10
    width := props.width.getD 150
    height := props.height.getD 100
    strokeColor := props.strokeColor.getD "#000000"
    strokeWidth := props.strokeWidth.getD 2
    fillColor := props.fillColor.getD "transparent" }

/-- `Slide.addShape`. -/
def addShape (s : PresentationSlide) (props : ShapeProps) (newId : String) : PresentationSlide :=
  addElement s (.shape (mkShapeElement props newId))

/-- The element built by `Slide.addSticker`:
`const { content, x, y, size = 100, rotation = 0 } = props;` with width,
height and the glyph scale (`fontSize`) all copied from `size`. -/
def mkStickerElement (props : StickerProps) (newId : String) : StickerElement :=
  { id := newId
    content := props.content
    x := props.x
    y := props.y
    width := props.size.getD 100
    height := props.size.getD 100
    fontSize := props.size.getD 100
    rotation := props.rotation.getD 0 }

/-- `Slide.addSticker`. -/
def addSticker (s : PresentationSlide) (props : StickerProps) (newId : String) : PresentationSlide :=
  addElement s (.sticker (mkStickerElement props newId))

/-- The element built by `Slide.addCharacter`. The default `actions` list
holds one freshly-identified text action saying "Hello!"; its `generateId()`
output is the explicit `actionId` parameter. -/
def mkGamificationElement (props : CharacterProps) (actionId : String) (newId : String) :
    GamificationElement :=
  { id := newId
    character := props.character.getD "char1"
    x := props.x.getD 50
    y := props.y.getD 350
    width := props.width.getD 150
    height := props.height.getD 200
    actions := props.actions.getD [{ id := actionId, type := "text", text := some "Hello!" }] }

/-- `Slide.addCharacter`. -/
def addCharacter (s : PresentationSlide) (props : CharacterProps) (actionId : String)
    (newId : String) : PresentationSlide :=
  addElement s (.gamification (mkGamificationElement props actionId newId))

/-- `Slide.setBackgroundColor`. -/
def setBackgroundColor (s : PresentationSlide) (color : String) : PresentationSlide :=
  { s with backgroundColor := color }

/-- `Slide.setBackgroundImageUrl`. -/
def setBackgroundImageUrl (s : PresentationSlide) (url : String) : PresentationSlide :=
  { s with backgroundImageUrl := some url }

/-- `Slide.setBorder`: style is written unconditionally; color and width are
written under JavaScript truthiness tests
(`if (props.color) ...; if (props.width) ...`). -/
def setBorder (s : PresentationSlide) (props : BorderProps) : PresentationSlide :=
  let s1 := { s with borderStyle := props.style }
  let s2 := if jsTruthyStr props.color then { s1 with borderColor := props.color } else s1
  if jsTruthyNum props.width then { s2 with borderWidth := props.width } else s2

end Slide

/-- Kind-specific payload fields of a `MediaItem`, for the kinds the claims
exercise. A created-slide item stores a *reference* (heap index) to the
`Slide`'s internal object, exactly as the JavaScript object spread copies the
object reference, not the object. -/
inductive MediaPayload where
  | youtube (embedUrl : String) (url : String)
  | csv (headers : List String) (rows : List (List CsvCell)) (content : String)
  | createdSlide (slideRef : ℕ)
  | quiz (q : Quiz)
deriving DecidableEq, Repr

/-- `MediaItem` from `types.ts`: common fields plus the kind-specific payload.
After `addMediaItem`, `transition` is always set (`item.transition || 'fade'`). -/
structure MediaItem where
  id : String
  type : String
  name : String
  notes : Option String := Option.none
  transition : Transition := .fade
  payload : MediaPayload
deriving DecidableEq, Repr

/-- `Omit<MediaItem, 'id'>`: what the `add*` helpers hand to `addMediaItem`,
with `transition` still possibly `undefined`. -/
structure MediaItemInput where
  type : String
  name : String
  notes : Option String := Option.none
  transition : Option Transition := Option.none
  payload : MediaPayload
deriving DecidableEq, Repr

/-- `SourceItem` from `types.ts`. -/
structure SourceItem where
  id : String
  title : String
  url : String
  notes : Option String := Option.none
  tags : Option (List String) := Option.none
deriving DecidableEq, Repr

/-- The `Presentation` aggregate: the ordered media queue and source list.
`warnings` records the `console.warn` diagnostics the class emits, oldest
first, so the diagnostic side channel is observable. -/
structure Presentation where
  mediaQueue : List MediaItem := []
  sources : List SourceItem := []
  warnings : List String := []
deriving DecidableEq, Repr

/-- A new, empty presentation. -/
def Presentation.empty : Presentation := {}

/-- `Presentation.addMediaItem`:
`this.mediaQueue.push({ ...item, id: generateId(), transition: item.transition || 'fade' })`.
The fresh identifier is the explicit `newId` parameter. -/
def Presentation.addMediaItem (p : Presentation) (item : MediaItemInput) (newId : String) :
    Presentation :=
  { p with
    mediaQueue := p.mediaQueue ++
      [{ id := newId
         type := item.type
         name := item.name
         notes := item.notes
         transition := item.transition.getD .fade
         payload := item.payload }] }

/-- Character class `[a-zA-Z0-9_-]` of the YouTube id capture group. -/
def isIdChar (c : Char) : Bool :=
  c.isAlphanum ∨ c = '_' ∨ c = '-'

/-- Strips a literal off the front of a character list, or fails. -/
def dropLit : List Char → List Char → Option (List Char)
  | [], cs => some cs
  | _ :: _, [] => Option.none
  | p :: ps, c :: cs => if p = c then dropLit ps cs else Option.none

/-- The capture group `([a-zA-Z0-9_-]{11})`: exactly the next eleven
characters, all from the class. -/
def takeId (cs : List Char) : Option String :=
  let ds := cs.take 11
  if ds.length = 11 ∧ ds.all isIdChar then some (String.mk ds) else Option.none

/-- Every alternative of the literal part of the regular expression
`(?:https?:\/\/)?(?:www\.)?(?:youtube\.com\/(?:watch\?v=|embed\/|v\/)|youtu\.be\/)`,
expanded in backtracking order: greedy option groups first (protocol with `s`
before without before absent, `www.` before absent) and alternations left to
right. Every piece is a literal, so trying these concatenations in order is
exactly the backtracking search of the regex engine at one position. -/
def ytCombos : List String :=
  (["https://", "http://", ""]).flatMap fun proto =>
    (["www.", ""]).flatMap fun www =>
      (["youtube.com/watch?v=", "youtube.com/embed/", "youtube.com/v/", "youtu.be/"]).map
        fun host => proto ++ www ++ host

/-- One anchored attempt of the YouTube regex at the head of `cs`, returning
the captured video id. -/
def matchYouTubeAt (cs : List Char) : Option String :=
  ytCombos.findSome? fun combo => (dropLit combo.data cs).bind takeId

/-- The unanchored search of `url.match(youtubeRegex)`: positions are tried
left to right, and the first successful capture wins. -/
def ytSearch : List Char → Option String
  | [] => Option.none
  | c :: rest =>
    match matchYouTubeAt (c :: rest) with
    | some v => some v
    | Option.none => ytSearch rest

/-- `getYouTubeEmbedUrl` from `Presentation.addYouTube`: on a match, the
privacy-enhanced embed URL around the captured id; `none` otherwise. -/
def getYouTubeEmbedUrl (url : String) : Option String :=
  (ytSearch url.data).map fun v => "https://www.youtube-nocookie.com/embed/" ++ v

/-- Caller input of `Presentation.addYouTube`. -/
structure YouTubeProps where
  name : String
  url : String
  notes : Option String := Option.none
  transition : Option Transition := Option.none
deriving DecidableEq, Repr

/-- `Presentation.addYouTube`: queue the item when the URL yields an embed
URL, otherwise leave the queue alone and emit the `console.warn` diagnostic. -/
def Presentation.addYouTube (p : Presentation) (props : YouTubeProps) (newId : String) :
    Presentation :=
  match getYouTubeEmbedUrl props.url with
  | some embedUrl =>
    p.addMediaItem
      { type := "youtube"
        name := props.name
        notes := props.notes
        transition := props.transition
        payload := .youtube embedUrl props.url } newId
  | Option.none =>
    { p with warnings := p.warnings ++ ["Invalid YouTube URL provided, skipping: " ++ props.url] }

/-- Caller input of `Presentation.addCsv`. `Option.none` is an absent
(`undefined`) field; `some` is a provided one, even if empty. -/
structure CsvInput where
  name : String
  content : Option String := Option.none
  headers : Option (List String) := Option.none
  rows : Option (List (List CsvCell)) := Option.none
  notes : Option String := Option.none
  transition : Option Transition := Option.none
deriving DecidableEq, Repr

/-- `Presentation.addCsv`. The guard `!csvData.content && !csvData.rows` uses
JavaScript truthiness: a provided-but-empty `content` string is falsy, while a
provided-but-empty `rows` array is truthy. Derivation from `content` fires
when the local `content` is non-empty and at least one of the *original*
`headers` / `rows` fields is absent; otherwise, with rows present and no
content, `content` is reconstituted. -/
def Presentation.addCsv (p : Presentation) (d : CsvInput) (newId : String) : Presentation :=
  if ¬ jsTruthyStr d.content ∧ d.rows = Option.none then
    { p with warnings := p.warnings ++
        ["CSV item requires either content (raw string) or rows/headers."] }
  else
    let headers0 := d.headers.getD []
    let rows0 := d.rows.getD []
    let content0 := d.content.getD ""
    let merged :=
      if content0 ≠ "" ∧ (d.headers = Option.none ∨ d.rows = Option.none) then
        (csvHeadersOf content0, csvRowsOf content0, content0)
      else if rows0.length > 0 ∧ content0 = "" then
        (headers0, rows0, csvContentOf headers0 rows0)
      else
        (headers0, rows0, content0)
    p.addMediaItem
      { type := "csv"
        name := d.name
        notes := d.notes
        transition := d.transition
        payload := .csv merged.1 merged.2.1 merged.2.2 } newId

/-- `Presentation.addQuiz`:
`this.addMediaItem({ type: 'quiz', name: quizData.title, quiz: { ...quizData, id: generateId() } })`.
Two identifiers are generated: one for the quiz record, one (inside
`addMediaItem`) for the media item. The questions pass through unchanged. -/
def Presentation.addQuiz (p : Presentation) (quizData : QuizData) (quizId : String)
    (newId : String) : Presentation :=
  p.addMediaItem
    { type := "quiz"
      name := quizData.title
      payload := .quiz { id := quizId, title := quizData.title, questions := quizData.questions } }
    newId

/-- `Presentation.addSource`. -/
def Presentation.addSource (p : Presentation) (title url : String) (notes : Option String)
    (tags : Option (List String)) (newId : String) : Presentation :=
  let src : SourceItem := { id := newId, title := title, url := url, notes := notes, tags := tags }
  { p with sources := p.sources ++ [src] }

/-- One base-36 digit character: `0-9` then `a-z`, as produced by the
JavaScript `Number.prototype.toString(36)`. -/
def base36Digit (n : ℕ) : Char :=
  if n < 10 then Char.ofNat (48 + n) else Char.ofNat (87 + n)

/-- Little-endian base-36 digit values of `n`; `fuel` only bounds the
recursion and any `fuel ≥ n` gives the digits. -/
def b36digits : ℕ → ℕ → List ℕ
  | 0, _ => []
  | fuel + 1, n => if n = 0 then [] else (n % 36) :: b36digits fuel (n / 36)

/-- JavaScript `n.toString(36)` for the nonnegative integers produced by
`Date.now()`. -/
def natToBase36 (n : ℕ) : String :=
  if n = 0 then "0" else String.mk (((b36digits n n).map base36Digit).reverse)

/-- `generateId`:
``` `${Date.now().toString(36)}-${Math.random().toString(36).substr(2, 9)}` ```
with the two nondeterministic observations passed in explicitly: `now` is the
millisecond timestamp and `rand` the up-to-nine base-36 fraction digits that
`substr(2, 9)` keeps of `Math.random().toString(36)`. -/
def generateId (now : ℕ) (rand : String) : String :=
  natToBase36 now ++ "-" ++ rand

/-- Replaces the element at index `i` (mutation of one heap cell). -/
def listModify {α : Type} (l : List α) (i : ℕ) (f : α → α) : List α :=
  match l, i with
  | [], _ => []
  | a :: rest, 0 => f a :: rest
  | a :: rest, n + 1 => a :: listModify rest n f

/-- The JavaScript heap fragment the claims need: `Slide` instances are
mutable objects, so a `Slide` value is an index into `slides`, and mutating
methods rewrite the indexed record in place. -/
structure World where
  slides : List PresentationSlide := []
  pres : Presentation := {}
deriving DecidableEq, Repr

/-- A method call `slide.f(...)` on the `Slide` object at heap index `r`. -/
def World.modifySlide (w : World) (r : ℕ) (f : PresentationSlide → PresentationSlide) : World :=
  { w with slides := listModify w.slides r f }

/-- `Presentation.addSlide(slide)`: the item's `name` is read from the slide
*now*, but the `slide` field stores the object reference itself
(`slide: slide.getSlideObject()` under a shallow spread). -/
def World.addSlide (w : World) (r : ℕ) (newId : String) : World :=
  let item : MediaItemInput :=
    { type := "created-slide"
      name := ((w.slides.get? r).map (·.title)).getD ""
      payload := .createdSlide r }
  { w with pres := w.pres.addMediaItem item newId }

/-- What a consumer reading queue position `i` sees as the embedded slide:
the dereferenced heap cell. -/
def World.queuedSlide (w : World) (i : ℕ) : Option PresentationSlide :=
  match w.pres.mediaQueue.get? i with
  | some item =>
    match item.payload with
    | .createdSlide r => w.slides.get? r
    | _ => Option.none
  | Option.none => Option.none

/-- The queue entry `addYouTube` produces for a URL whose captured video id
is `v`. -/
def ytItem (props : YouTubeProps) (v : String) (newId : String) : MediaItem :=
  { id := newId
    type := "youtube"
    name := props.name
    notes := props.notes
    transition := props.transition.getD .fade
    payload := .youtube ("https://www.youtube-nocookie.com/embed/" ++ v) props.url }

/-- The queue entry `addCsv` produces once headers, rows and content are
settled. -/
def csvItem (name : String) (headers : List String) (rows : List (List CsvCell))
    (content : String) (notes : Option String) (transition : Option Transition)
    (newId : String) : MediaItem :=
  { id := newId
    type := "csv"
    name := name
    notes := notes
    transition := transition.getD .fade
    payload := .csv headers rows content }

/-- The queue entry `addQuiz` produces: quiz id assigned, title mirrored,
questions passed through unchanged. -/
def quizItem (quizData : QuizData) (quizId : String) (newId : String) : MediaItem :=
  { id := newId
    type := "quiz"
    name := quizData.title
    payload := .quiz { id := quizId, title := quizData.title, questions := quizData.questions } }

/-- Little-endian base-36 evaluation, inverse of `b36digits`. -/
def ofB36 : List ℕ → ℕ
  | [] => 0
  | d :: ds => d + 36 * ofB36 ds

/-- A world holding one fresh `Slide` titled "T" with a white background. -/
def exW0 : World := { slides := [Slide.make "T" "#FFFFFF" "s1"] }

/-- The world after `pres.addSlide(slide)`. -/
def exW1 : World := exW0.addSlide 0 "m1"

/-- The world after the *subsequent* mutation
`slide.setBackgroundColor('#000000')`. -/
def exW2 : World := exW1.modifySlide 0 fun s => Slide.setBackgroundColor s "#000000"

/-- A slide that has received `setBorder({ style: 'solid', width: 5 })`. -/
def exBorderSlide : PresentationSlide :=
  Slide.setBorder (Slide.make "T" "#FFFFFF" "s1") { style := "solid", width := some 5 }

/-- The quiz of the README Quick Start example: no question or option carries
an identifier. -/
def popQuiz : QuizData :=
  { title := "Pop Quiz!"
    questions := [.multipleChoice Option.none "Is scripting cool?" 15
      [{ id := Option.none, text := "Yes!", isCorrect := true },
       { id := Option.none, text := "Absolutely!", isCorrect := true }]] }

theorem takeId_length (cs : List Char) (v : String) (h : takeId cs = some v) : v.length = 11 := by
  simp only [takeId] at h
  split at h
  · rename_i hcond
    cases h
    simpa [String.length] using hcond.1
  · exact absurd h (by simp)

theorem matchYouTubeAt_length (cs : List Char) (v : String)
    (h : matchYouTubeAt cs = some v) : v.length = 11 := by
  obtain ⟨combo, -, hc⟩ := List.exists_of_findSome?_eq_some h
  rw [Option.bind_eq_some] at hc
  obtain ⟨cs3, -, ht⟩ := hc
  exact takeId_length cs3 v ht

theorem ytSearch_length (cs : List Char) (v : String) (h : ytSearch cs = some v) :
    v.length = 11 := by
  induction cs with
  | nil => simp [ytSearch] at h
  | cons c rest ih =>
    unfold ytSearch at h
    split at h
    · rename_i hm
      cases h
      exact matchYouTubeAt_length _ _ hm
    · exact ih h

theorem listModify_get? {α : Type} (l : List α) (i : ℕ) (f : α → α) :
    (listModify l i f).get? i = (l.get? i).map f := by
  induction l generalizing i with
  | nil => simp [listModify]
  | cons a rest ih =>
    cases i with
    | zero => simp [listModify]
    | succ n => simpa [listModify] using ih n

theorem listModify_getElem? {α : Type} (l : List α) (i : ℕ) (f : α → α) :
    (listModify l i f)[i]? = (l[i]?).map f := by
  induction l generalizing i with
  | nil => simp [listModify]
  | cons a rest ih =>
    cases i with
    | zero => simp [listModify]
    | succ n => simpa [listModify] using ih n

theorem b36digits_lt36 (fuel n d : ℕ) (h : d ∈ b36digits fuel n) : d < 36 := by
  induction fuel generalizing n with
  | zero => simp [b36digits] at h
  | succ fuel ih =>
    unfold b36digits at h
    split at h
    · simp at h
    · rcases List.mem_cons.mp h with h | h
      · exact h ▸ Nat.mod_lt _ (by norm_num)
      · exact ih _ h

theorem b36digits_spec (fuel n : ℕ) (h : n ≤ fuel) : ofB36 (b36digits fuel n) = n := by
  induction fuel generalizing n with
  | zero => simp [Nat.le_zero.mp h, b36digits, ofB36]
  | succ fuel ih =>
    unfold b36digits
    split
    · rename_i hz
      simp [hz, ofB36]
    · rename_i hz
      have hdiv : n / 36 ≤ fuel := by
        have hlt : n / 36 < n := Nat.div_lt_self (Nat.pos_of_ne_zero hz) (by norm_num)
        omega
      simp [ofB36, ih _ hdiv, Nat.mod_add_div]

theorem base36Digit_inj : ∀ a, a < 36 → ∀ b, b < 36 → base36Digit a = base36Digit b → a = b := by
  decide

theorem base36_map_inj : ∀ (l₁ l₂ : List ℕ), (∀ d ∈ l₁, d < 36) → (∀ d ∈ l₂, d < 36) →
    l₁.map base36Digit = l₂.map base36Digit → l₁ = l₂
  | [], [], _, _, _ => rfl
  | [], _ :: _, _, _, h => by simp at h
  | _ :: _, [], _, _, h => by simp at h
  | a :: as, b :: bs, h₁, h₂, h => by
    simp only [List.map_cons, List.cons.injEq] at h
    have hd : a = b := base36Digit_inj a (h₁ a (by simp)) b (h₂ b (by simp)) h.1
    have ht : as = bs := base36_map_inj as bs (fun d hd2 => h₁ d (by simp [hd2]))
      (fun d hd2 => h₂ d (by simp [hd2])) h.2
    simp [hd, ht]

theorem natToBase36_no_dash (t : ℕ) : ∀ c ∈ (natToBase36 t).data, c ≠ '-' := by
  unfold natToBase36
  split
  · intro c hc
    simp only [String.data] at hc
    simp at hc
    simp [hc]
  · intro c hc
    simp only [String.data] at hc
    rw [List.mem_reverse, List.mem_map] at hc
    obtain ⟨d, hd, rfl⟩ := hc
    have : d < 36 := b36digits_lt36 _ _ _ hd
    revert this
    have h36 : ∀ d, d < 36 → base36Digit d ≠ '-' := by decide
    exact h36 d

theorem natToBase36_injective (t₁ t₂ : ℕ) (h : natToBase36 t₁ = natToBase36 t₂) : t₁ = t₂ := by
  have hdig : ∀ t : ℕ, t ≠ 0 → natToBase36 t = "0" → False := by
    intro t ht h0
    rw [natToBase36, if_neg ht] at h0
    have hdata : ((b36digits t t).map base36Digit).reverse = ['0'] := by
      have := congrArg String.data h0
      simpa using this
    have hmap : (b36digits t t).map base36Digit = ['0'] := by
      have := congrArg List.reverse hdata
      simpa using this
    have : b36digits t t = [0] := by
      have h0d : base36Digit 0 = '0' := by decide
      refine base36_map_inj _ [0] (fun d hd => b36digits_lt36 _ _ _ hd) (by simp) ?_
      simpa [h0d] using hmap
    have hspec := b36digits_spec t t le_rfl
    rw [this] at hspec
    simp [ofB36] at hspec
    exact ht hspec.symm
  rcases eq_or_ne t₁ 0 with rfl | h₁
  · rcases eq_or_ne t₂ 0 with rfl | h₂
    · rfl
    · exact absurd (h.symm) (fun hh => absurd (hdig t₂ h₂ hh) id)
  · rcases eq_or_ne t₂ 0 with rfl | h₂
    · exact absurd h (fun hh => absurd (hdig t₁ h₁ hh) id)
    · rw [natToBase36, if_neg h₁, natToBase36, if_neg h₂] at h
      have hdata : ((b36digits t₁ t₁).map base36Digit).reverse
          = ((b36digits t₂ t₂).map base36Digit).reverse := by
        have := congrArg String.data h
        simpa using this
      have hmap := congrArg List.reverse hdata
      simp only [List.reverse_reverse] at hmap
      have hdigs := base36_map_inj _ _ (fun d hd => b36digits_lt36 _ _ _ hd)
        (fun d hd => b36digits_lt36 _ _ _ hd) hmap
      calc t₁ = ofB36 (b36digits t₁ t₁) := (b36digits_spec t₁ t₁ le_rfl).symm
        _ = ofB36 (b36digits t₂ t₂) := by rw [hdigs]
        _ = t₂ := b36digits_spec t₂ t₂ le_rfl

theorem sepSplit : ∀ (a₁ a₂ r₁ r₂ : List Char), '-' ∉ a₁ → '-' ∉ a₂ →
    a₁ ++ '-' :: r₁ = a₂ ++ '-' :: r₂ → a₁ = a₂ ∧ r₁ = r₂
  | [], [], r₁, r₂, _, _, h => ⟨rfl, by simpa using h⟩
  | [], b :: bs, r₁, r₂, _, h₂, h => by
    simp only [List.nil_append, List.cons_append, List.cons.injEq] at h
    exact absurd (h.1.symm ▸ List.mem_cons_self b bs) h₂
  | a :: as, [], r₁, r₂, h₁, _, h => by
    simp only [List.nil_append, List.cons_append, List.cons.injEq] at h
    exact absurd (h.1 ▸ List.mem_cons_self a as) h₁
  | a :: as, b :: bs, r₁, r₂, h₁, h₂, h => by
    simp only [List.cons_append, List.cons.injEq] at h
    have := sepSplit as bs r₁ r₂ (fun hm => h₁ (List.mem_cons_of_mem a hm))
      (fun hm => h₂ (List.mem_cons_of_mem b hm)) h.2
    exact ⟨by simp [h.1, this.1], this.2⟩

theorem string_data_append (s t : String) : (s ++ t).data = s.data ++ t.data := by
  cases s
  cases t
  rfl

theorem string_data_inj (s t : String) (h : s.data = t.data) : s = t := by
  cases s
  cases t
  exact congrArg String.mk h

theorem generateId_data (t : ℕ) (r : String) :
    (generateId t r).data = (natToBase36 t).data ++ '-' :: r.data := by
  show (natToBase36 t ++ "-" ++ r).data = _
  rw [string_data_append, string_data_append, List.append_assoc]
  rfl

/-- C8 (amended): every identifier `generateId` builds is a non-empty string,
and two calls produce distinct identifiers whenever their observed
`(Date.now(), random-suffix)` pairs differ — the base-36 timestamp never
contains the `'-'` separator, so the two components are recoverable. When the
two observations coincide the identifiers are equal (see the counterexample),
so N-way distinctness of N calls holds only with overwhelming probability,
exactly as §4.1/§9 of the specification put it, not unconditionally. -/
theorem generateId_nonempty_and_distinct (t₁ t₂ : ℕ) (r₁ r₂ : String) :
    generateId t₁ r₁ ≠ "" ∧
    ((t₁, r₁) ≠ (t₂, r₂) → generateId t₁ r₁ ≠ generateId t₂ r₂) := by
  constructor
  · intro h0
    have h0' := congrArg String.data h0
    rw [generateId_data] at h0'
    simp at h0'
  · intro hne heq
    have h1 := congrArg String.data heq
    rw [generateId_data, generateId_data] at h1
    obtain ⟨ha, hr⟩ := sepSplit _ _ _ _
      (fun hm => natToBase36_no_dash t₁ '-' hm rfl)
      (fun hm => natToBase36_no_dash t₂ '-' hm rfl) h1
    have ht : t₁ = t₂ := natToBase36_injective _ _ (string_data_inj _ _ ha)
    have hrs : r₁ = r₂ := string_data_inj _ _ hr
    exact hne (by rw [ht, hrs])

/-- C8 (counterexample): the claim demands unconditional distinctness of the
identifiers of successive construction calls, but `generateId` is a pure
function of the millisecond clock and the random draw — two calls that
observe the same millisecond and the same random value (possible, and merely
improbable) produce the *same* identifier, so the collected list is not
pairwise distinct. -/
theorem generateId_collision :
    generateId 0 "abc" = generateId 0 "abc" ∧
    ¬ ([generateId 0 "abc", generateId 0 "abc"].Pairwise (· ≠ ·)) := by
  refine ⟨rfl, fun h => ?_⟩
  exact (List.pairwise_cons.mp h).1 _ (by simp) rfl

theorem generateId_nonempty_and_distinct_witness :
    generateId 0 "abc" ≠ "" ∧ generateId 0 "abc" ≠ generateId 1 "abc" := by
  have h := generateId_nonempty_and_distinct 0 1 "abc" "abc"
  exact ⟨h.1, h.2 (by simp)⟩

/-- C1 (amended): `addSlide` queues a created-slide item whose `slide` field
is the *live reference* to the `Slide`'s internal object, not a snapshot:
after any further mutation `f` of the slide, a reader of the queued item sees
the mutated object (only the item's `name` was read at add time). With an
out-of-range reference both sides are `Option.none`, hence no hypothesis. -/
theorem addSlide_live_reference (w : World) (r : ℕ) (newId : String)
    (f : PresentationSlide → PresentationSlide) :
    ((w.addSlide r newId).modifySlide r f).queuedSlide w.pres.mediaQueue.length
      = (w.slides.get? r).map f := by
  simp [World.addSlide, World.modifySlide, World.queuedSlide, Presentation.addMediaItem,
    List.getElem?_concat_length, listModify_getElem?]

/-- C1 (counterexample): build a slide with a white background, queue it with
`addSlide`, then call `setBackgroundColor('#000000')` on the original `Slide`
instance. The already-queued item now shows the black background — mutation
after `addSlide` *does* alter what the queue holds, refuting copy-on-add. -/
theorem addSlide_not_snapshot :
    World.queuedSlide exW2 0 ≠ World.queuedSlide exW1 0 ∧
    (World.queuedSlide exW2 0).map (fun s => s.backgroundColor) = some "#000000" := by
  with_unfolding_all decide

/-- C2 (confirmed): when the URL matches one of the recognized YouTube shapes
the captured id has exactly 11 characters and exactly one `youtube` item is
appended, whose `embedUrl` is the privacy-enhanced prefix followed by the id
(no diagnostic); when nothing matches, the queue is untouched, the
`console.warn` diagnostic naming the URL is emitted, and the call returns
normally (the embedded function is total). -/
theorem addYouTube_spec (p : Presentation) (props : YouTubeProps) (newId : String) :
    (∀ v, ytSearch props.url.data = some v →
      v.length = 11 ∧
      (p.addYouTube props newId).mediaQueue = p.mediaQueue ++ [ytItem props v newId] ∧
      (p.addYouTube props newId).warnings = p.warnings) ∧
    (ytSearch props.url.data = Option.none →
      (p.addYouTube props newId).mediaQueue = p.mediaQueue ∧
      (p.addYouTube props newId).warnings =
        p.warnings ++ ["Invalid YouTube URL provided, skipping: " ++ props.url]) := by
  constructor
  · intro v hv
    refine ⟨ytSearch_length _ _ hv, ?_, ?_⟩ <;>
      simp [Presentation.addYouTube, getYouTubeEmbedUrl, hv, Presentation.addMediaItem, ytItem]
  · intro hv
    constructor <;> simp [Presentation.addYouTube, getYouTubeEmbedUrl, hv]

theorem addYouTube_spec_witness :
    ((Presentation.empty.addYouTube
        { name := "n", url := "https://www.youtube.com/watch?v=dQw4w9WgXcQ" } "i").mediaQueue
      = [ytItem { name := "n", url := "https://www.youtube.com/watch?v=dQw4w9WgXcQ" }
          "dQw4w9WgXcQ" "i"]) ∧
    (ytItem { name := "n", url := "https://www.youtube.com/watch?v=dQw4w9WgXcQ" }
        "dQw4w9WgXcQ" "i").payload
      = .youtube "https://www.youtube-nocookie.com/embed/dQw4w9WgXcQ"
          "https://www.youtube.com/watch?v=dQw4w9WgXcQ" ∧
    ((Presentation.empty.addYouTube { name := "n", url := "not-a-url" } "i").mediaQueue = []) := by
  refine ⟨?_, by with_unfolding_all decide, ?_⟩
  · have h := (addYouTube_spec Presentation.empty
      { name := "n", url := "https://www.youtube.com/watch?v=dQw4w9WgXcQ" } "i").1
      "dQw4w9WgXcQ" (by with_unfolding_all decide)
    simpa [Presentation.empty] using h.2.1
  · have h := (addYouTube_spec Presentation.empty
      { name := "n", url := "not-a-url" } "i").2 (by with_unfolding_all decide)
    simpa [Presentation.empty] using h.1

/-- C3 (confirmed): with `content` given (non-empty — the code tests
JavaScript truthiness, and a provided-but-empty string falls into the
neither-source branch of C5) and `headers`/`rows` absent, the queued item
derives both from `content`: split on newlines, skip blank lines, first line
comma-split and trimmed as headers, later lines comma-split with per-cell
numeric coercion; the claim's concrete example evaluates exactly as stated. -/
theorem addCsv_derives_from_content (p : Presentation) (name content : String)
    (notes : Option String) (trans : Option Transition) (newId : String) (h : content ≠ "") :
    ((p.addCsv { name := name, content := some content, notes := notes, transition := trans }
        newId).mediaQueue
      = p.mediaQueue ++
        [csvItem name (csvHeadersOf content) (csvRowsOf content) content notes trans newId]) ∧
    csvHeadersOf "a,b\n1,x\n2,y" = ["a", "b"] ∧
    csvRowsOf "a,b\n1,x\n2,y" = [[.num (.finite 1), .str "x"], [.num (.finite 2), .str "y"]] := by
  refine ⟨?_, by with_unfolding_all decide, by with_unfolding_all decide⟩
  simp [Presentation.addCsv, jsTruthyStr, h, csvItem, Presentation.addMediaItem]

theorem addCsv_derives_from_content_witness :
    (Presentation.empty.addCsv { name := "t", content := some "a,b\n1,x\n2,y" } "i").mediaQueue
      = [csvItem "t" ["a", "b"] [[.num (.finite 1), .str "x"], [.num (.finite 2), .str "y"]]
          "a,b\n1,x\n2,y" Option.none Option.none "i"] := by
  have h := addCsv_derives_from_content Presentation.empty "t" "a,b\n1,x\n2,y"
    Option.none Option.none "i" (by decide)
  rw [h.1, h.2.1, h.2.2]
  rfl

/-- C9 (confirmed): derivation from `content` fires whenever `content` is
truthy and at least one of the original `headers` / `rows` fields is absent —
so a caller-supplied `headers` (with `rows` absent) or a caller-supplied
`rows` (with `headers` absent) is discarded and both are re-derived. -/
theorem addCsv_rederives_discarding (p : Presentation) (name content : String)
    (hs : List String) (rs : List (List CsvCell)) (notes : Option String)
    (trans : Option Transition) (newId : String) (h : content ≠ "") :
    ((p.addCsv
        { name := name, content := some content, headers := some hs,
          notes := notes, transition := trans } newId).mediaQueue
      = p.mediaQueue ++
        [csvItem name (csvHeadersOf content) (csvRowsOf content) content notes trans newId]) ∧
    ((p.addCsv
        { name := name, content := some content, rows := some rs,
          notes := notes, transition := trans } newId).mediaQueue
      = p.mediaQueue ++
        [csvItem name (csvHeadersOf content) (csvRowsOf content) content notes trans newId]) := by
  constructor <;>
    simp [Presentation.addCsv, jsTruthyStr, h, csvItem, Presentation.addMediaItem]

theorem addCsv_rederives_discarding_witness :
    ((Presentation.empty.addCsv
        { name := "t", content := some "a,b\n1,2", headers := some ["H"] } "i").mediaQueue
      = [csvItem "t" ["a", "b"] [[.num (.finite 1), .num (.finite 2)]] "a,b\n1,2"
          Option.none Option.none "i"]) ∧
    csvHeadersOf "a,b\n1,2" ≠ ["H"] := by
  refine ⟨?_, by with_unfolding_all decide⟩
  have h := addCsv_rederives_discarding Presentation.empty "t" "a,b\n1,2" ["H"] []
    Option.none Option.none "i" (by decide)
  rw [h.1]
  with_unfolding_all decide

/-- C5 (confirmed): with `content` and `rows` both absent (whatever `headers`
says), no item is appended, the `console.warn` diagnostic is recorded, the
source list is untouched, and the call returns normally — the embedded
function is total, mirroring the early `return this`. -/
theorem addCsv_rejects_missing (p : Presentation) (name : String)
    (headers : Option (List String)) (notes : Option String) (trans : Option Transition)
    (newId : String) :
    ((p.addCsv { name := name, headers := headers, notes := notes, transition := trans }
        newId).mediaQueue = p.mediaQueue) ∧
    ((p.addCsv { name := name, headers := headers, notes := notes, transition := trans }
        newId).warnings
      = p.warnings ++ ["CSV item requires either content (raw string) or rows/headers."]) ∧
    ((p.addCsv { name := name, headers := headers, notes := notes, transition := trans }
        newId).sources = p.sources) := by
  refine ⟨?_, ?_, ?_⟩ <;> simp [Presentation.addCsv, jsTruthyStr]

/-- C10 (confirmed): during row derivation, a cell whose trimmed text is
empty coerces to the number `0` (JavaScript `Number('') === 0` and
`isNaN(0)` is false), as the adjacent-commas example shows. -/
theorem csv_empty_cell_zero :
    (∀ cell : String, jsTrim cell = "" → coerceCell cell = .num (.finite 0)) ∧
    csvRowsOf "a,b,c\n1,,3" = [[.num (.finite 1), .num (.finite 0), .num (.finite 3)]] := by
  constructor
  · intro cell hc
    have h0 : jsStringToNumber "" = some (.finite 0) := by with_unfolding_all decide
    simp [coerceCell, hc, h0]
  · with_unfolding_all decide

theorem csv_empty_cell_zero_witness : coerceCell " " = .num (.finite 0) :=
  csv_empty_cell_zero.1 " " (by with_unfolding_all decide)

/-- C4 (code behavior at the failing input): `addQuiz` assigns a fresh
identifier to the quiz record and mirrors its title into the item name, but
passes the questions through *unchanged* — on the README Quick Start quiz,
whose questions and answer options carry no identifiers, the queued quiz
still has `id`-less questions and options, contrary to the claimed
assign-if-absent behavior. -/
theorem addQuiz_keeps_questions_unassigned (p : Presentation) (qd : QuizData)
    (quizId newId : String) :
    ((p.addQuiz qd quizId newId).mediaQueue = p.mediaQueue ++ [quizItem qd quizId newId]) ∧
    ((Presentation.empty.addQuiz popQuiz "q1" "m1").mediaQueue.map (fun item => item.payload)
      = [.quiz { id := "q1", title := "Pop Quiz!", questions := popQuiz.questions }]) ∧
    popQuiz.questions = [.multipleChoice Option.none "Is scripting cool?" 15
      [{ id := Option.none, text := "Yes!", isCorrect := true },
       { id := Option.none, text := "Absolutely!", isCorrect := true }]] := by
  refine ⟨?_, by with_unfolding_all decide, by with_unfolding_all decide⟩
  simp [Presentation.addQuiz, Presentation.addMediaItem, quizItem]

/-- C6 (confirmed): every element builder appends one element whose fields
are the per-type defaults of §4.2 overridden field-by-field by the supplied
fields (a shallow merge — e.g. a supplied `actions` list replaces the default
action list wholesale), and whose `id` and type discriminant come from the
builder alone: the quantification over `props` includes stray `id` / `type`
entries in the input, which the result provably never depends on, since the
source spread `{ ...defaults, ...props, id: generateId(), type: ... }` puts
the builder's values last. For stickers, `size` (default 100) is copied into
width, height and the glyph scale, and `rotation` defaults to 0. -/
theorem element_defaults_and_overrides (s : PresentationSlide) (newId actionId : String) :
    (∀ props : TextProps, Slide.addText s props newId = Slide.addElement s (.text
      { id := newId
        content := props.content.getD "New Text"
        x := props.x.getD 10
        y := props.y.getD 10
        width := props.width.getD 300
        height := props.height.getD 50
        fontSize := props.fontSize.getD 24
        color := props.color.getD "#000000"
        fontFamily := props.fontFamily.getD "Alegreya"
        fontWeight := props.fontWeight
        fontStyle := props.fontStyle
        textAlign := props.textAlign
        animation := props.animation.getD "none" })) ∧
    (∀ props : ImageProps, Slide.addImage s props newId = Slide.addElement s (.image
      { id := newId
        src := props.src.getD "https://placehold.co/300x200.png"
        x := props.x.getD 10
        y := props.y.getD 10
        width := props.width.getD 300
        height := props.height.getD 200
        alt := props.alt })) ∧
    (∀ props : MathProps, Slide.addMath s props newId = Slide.addElement s (.math
      { id := newId
        content := props.content.getD "E = mc^2"
        x := props.x.getD 10
        y := props.y.getD 10
        width := props.width.getD 200
        height := props.height.getD 60
        fontSize := props.fontSize.getD 24
        color := props.color.getD "#000000" })) ∧
    (∀ props : ShapeProps, Slide.addShape s props newId = Slide.addElement s (.shape
      { id := newId
        shape := props.shape.getD "rectangle"
        x := props.x.getD 10
        y := props.y.getD 10
        width := props.width.getD 150
        height := props.height.getD 100
        strokeColor := props.strokeColor.getD "#000000"
        strokeWidth := props.strokeWidth.getD 2
        fillColor := props.fillColor.getD "transparent" })) ∧
    (∀ props : StickerProps, Slide.addSticker s props newId = Slide.addElement s (.sticker
      { id := newId
        content := props.content
        x := props.x
        y := props.y
        width := props.size.getD 100
        height := props.size.getD 100
        fontSize := props.size.getD 100
        rotation := props.rotation.getD 0 })) ∧
    (∀ props : CharacterProps, Slide.addCharacter s props actionId newId
      = Slide.addElement s (.gamification
      { id := newId
        character := props.character.getD "char1"
        x := props.x.getD 50
        y := props.y.getD 350
        width := props.width.getD 150
        height := props.height.getD 200
        actions := props.actions.getD
          [{ id := actionId, type := "text", text := some "Hello!" }] })) :=
  ⟨fun _ => rfl, fun _ => rfl, fun _ => rfl, fun _ => rfl, fun _ => rfl, fun _ => rfl⟩

/-- C7 (amended): `setBorder` always overwrites the style; color and width
are overwritten exactly when the call provides a *truthy* value — a non-empty
color string, a non-zero width — and otherwise retain their previous value
(the source guards are `if (props.color)` / `if (props.width)`, JavaScript
truthiness tests, so a provided `""` color or `0` width is ignored; see the
counterexample). The claim's own example is unaffected: two style-only calls
leave color and width absent, never defaulted. -/
theorem setBorder_spec (s : PresentationSlide) (props : BorderProps) :
    ((Slide.setBorder s props).borderStyle = props.style) ∧
    ((Slide.setBorder s props).borderColor
      = if jsTruthyStr props.color then props.color else s.borderColor) ∧
    ((Slide.setBorder s props).borderWidth
      = if jsTruthyNum props.width then props.width else s.borderWidth) ∧
    ((Slide.setBorder (Slide.setBorder (Slide.make "T" "#FFFFFF" "s1") { style := "solid" })
        { style := "ants" }).borderStyle = "ants") ∧
    ((Slide.setBorder (Slide.setBorder (Slide.make "T" "#FFFFFF" "s1") { style := "solid" })
        { style := "ants" }).borderColor = Option.none) ∧
    ((Slide.setBorder (Slide.setBorder (Slide.make "T" "#FFFFFF" "s1") { style := "solid" })
        { style := "ants" }).borderWidth = Option.none) := by
  refine ⟨?_, ?_, ?_, by with_unfolding_all decide, by with_unfolding_all decide,
    by with_unfolding_all decide⟩ <;>
    simp only [Slide.setBorder] <;> split <;> split <;> simp_all

/-- C7 (counterexample): `setBorder({ style: 'solid', width: 5 })` followed by
`setBorder({ style: 'ants', width: 0 })` leaves the width at 5 — the second
call *provides* a width, yet it is not overwritten, because `0` is falsy. -/
theorem setBorder_zero_width_ignored :
    ((Slide.setBorder exBorderSlide { style := "ants", width := some 0 }).borderWidth = some 5) ∧
    ((Slide.setBorder exBorderSlide { style := "ants", width := some 0 }).borderWidth
      ≠ some 0) := by
  with_unfolding_all decide
